import Mathlib

/-!
Verification of the nboost / neural_rerank request-pipeline core.

Shallow embedding of:
- `src/nboost/proxy/__init__.py` : the `track` instrumentation decorator and
  the `search` / `not_found` route handlers built inside `Proxy.__init__`;
- `src/neural_rerank/server/base.py` : `running_avg` and
  `BaseServer.middleware`, plus the `run`/`start` readiness lifecycle.

Python's dynamically-typed values are modelled by the inductive `V`;
exceptions by `Exc` carried in `Except`; side effects (the `db.lap` metrics
events and `logger.error` calls) by an event trace threaded through a state
monad `M` together with a stream of `perf_counter` readings.  An exception
does not roll back effects that already happened, so `M` returns the state
alongside the `Except` result rather than nesting `Except` inside the state.
Rational numbers stand for the floating-point clock readings.
-/

/-- A Python exception, identified by its type name. -/
structure Exc where
  name : String
deriving Repr, DecidableEq

/-- Untyped runtime values (requests, responses, counts, tuples, lists).
`pair` models a 2-tuple, which is what star-unpacking of a 2-element
iterable consumes; composite values such as id lists are opaque here. -/
inductive V where
  | base : String → V
  | num : Nat → V
  | pair : V → V → V
deriving Repr, DecidableEq

/-- Observable side effects of the pipeline: a `db.lap(ms, cls, fname)`
metrics event, or a `self.logger.error(repr(e), exc_info=True)` call. -/
inductive Event where
  | lap : ℚ → String → String → Event
  | logError : Exc → Event
deriving Repr, DecidableEq

/-- Mutable context a pipeline step runs in: the trace of events emitted so
far, and the stream of future `time.perf_counter()` readings. -/
structure St where
  trace : List Event
  clock : List ℚ
deriving Repr, DecidableEq

/-- The effect monad of the pipeline: state threading plus Python-style
exceptions that leave already-performed effects in place. -/
def M (α : Type) : Type := St → Except Exc α × St

def M.pure {α : Type} (a : α) : M α := fun s => (Except.ok a, s)

def M.bind {α β : Type} (x : M α) (f : α → M β) : M β := fun s =>
  match x s with
  | (Except.ok a, s₁) => f a s₁
  | (Except.error e, s₁) => (Except.error e, s₁)

instance : Monad M where
  pure := M.pure
  bind := M.bind

/-- Abort with a Python exception, as a `raise e` statement does. -/
def M.throwExc {α : Type} (e : Exc) : M α := fun s => (Except.error e, s)

/-- Model of `time.perf_counter()`: consume the next clock reading (0 if
the stream ran dry — timing values are otherwise unconstrained). -/
def perfCounter : M ℚ := fun s =>
  (Except.ok (s.clock.headD 0), { s with clock := s.clock.tail })

/-- Modelled from the spec: `BaseDb.lap` (nboost's db module is not under
src/) — the Metrics Store is an "append-only recorder of timed events keyed
by (component, operation)", so `lap` appends one event and returns. -/
def dbLap (ms : ℚ) (cls fname : String) : M Unit := fun s =>
  (Except.ok (), { s with trace := s.trace ++ [Event.lap ms cls fname] })

/-- Model of `self.logger.error(repr(e), exc_info=True)`: record the
error event. -/
def logErrorEvt (e : Exc) (s : St) : St :=
  { s with trace := s.trace ++ [Event.logError e] }

/-- The `track` decorator of `Proxy.__init__` (src/nboost/proxy/__init__.py
lines 56-79).  `ident` is the `(class name, function name)` pair computed
from `f`; `catch` is `codex.catch`.  The decorator times `f`, reports the
elapsed milliseconds to `db.lap`, and on an exception logs it and returns
`codex.catch(e)` — whose own exception, if any, propagates. -/
def track (catchE : Exc → Except Exc V) (ident : String × String)
    (f : M V) : M V := fun s =>
  match (do
      let start ← perfCounter
      let ret ← f
      let stop ← perfCounter
      dbLap ((stop - start) * 1000) ident.1 ident.2
      pure ret : M V) s with
  | (Except.ok v, s₁) => (Except.ok v, s₁)
  | (Except.error e, s₁) =>
    match catchE e with
    | Except.ok fb => (Except.ok fb, logErrorEvt e s₁)
    | Except.error e₂ => (Except.error e₂, logErrorEvt e s₁)

/-- Star-unpacking `*v` of a value into exactly two arguments: succeeds on a
2-tuple, raises `TypeError` otherwise.  In the `search` body this happens at
the call site, outside the inner decorator's try block. -/
def unpack2 (v : V) : M (V × V) := fun s =>
  match v with
  | V.pair a b => (Except.ok (a, b), s)
  | _ => (Except.error ⟨"TypeError"⟩, s)

/-- The four pluggable components as the pipeline sees them: each operation
is an effectful function on untyped values, and `catch` is the codex's
error-classification hook (`codex.catch`), which either returns a fallback
response or raises. -/
structure Comps where
  topk : V → M V
  magnify : V → V → M V
  ask : V → M V
  parse : V → V → M V
  rank : V → V → M V
  save : V → V → M V
  pack : V → V → V → V → V → V → V → M V
  catchE : Exc → Except Exc V

/-- Body of the `search` route handler (src/nboost/proxy/__init__.py lines
82-111), before the outer `@track` is applied.  The owner names are the
default component class names (`f.__self__.__class__.__name__`).  `_5` is
star-unpacked afresh at each of the three call sites that consume it. -/
def searchBody (C : Comps) (_1 : V) : M V := do
  let _2 ← track C.catchE ("BaseCodex", "topk") (C.topk _1)
  let _3 ← track C.catchE ("BaseCodex", "magnify") (C.magnify _1 _2)
  let _4 ← track C.catchE ("BaseServer", "ask") (C.ask _3)
  let _5 ← track C.catchE ("BaseCodex", "parse") (C.parse _3 _4)
  let p₁ ← unpack2 _5
  let _6 ← track C.catchE ("BaseModel", "rank") (C.rank p₁.1 p₁.2)
  let p₂ ← unpack2 _5
  let _7 ← track C.catchE ("BaseDb", "save") (C.save p₂.1 p₂.2)
  let p₃ ← unpack2 _5
  let p₄ ← unpack2 _7
  let _8 ← track C.catchE ("BaseCodex", "pack")
    (C.pack _2 _4 p₃.1 p₃.2 _6 p₄.1 p₄.2)
  pure _8

/-- The `search` route as registered with the server: the body wrapped by
`@track` (a plain function has no `__self__`, so the owner is the `Proxy`
class itself). -/
def searchRoute (C : Comps) (_1 : V) : M V :=
  track C.catchE ("Proxy", "search") (searchBody C _1)

/-- Modelled from the spec: `server.forward` (nboost's server module is not
under src/) — the Backend Connector "forwards the raw, unmodified request to
the backend and relays its response verbatim", so it is the backend's
response function applied to the request, with no effects of its own. -/
def forwardImpl (backend : V → V) (req : V) : M V :=
  pure (backend req)

/-- The `not_found` route handler (src/nboost/proxy/__init__.py lines
142-147): delegate to `track(server.forward)(_1)`, itself wrapped by
`@track`. -/
def notFoundRoute (catchE : Exc → Except Exc V) (backend : V → V)
    (_1 : V) : M V :=
  track catchE ("Proxy", "not_found") (do
    let _2 ← track catchE ("BaseServer", "forward") (forwardImpl backend _1)
    pure _2)

/-- Projection of a trace to the `(owner, operation)` keys of its metrics
events, in emission order: the observable record of which instrumented
calls completed. -/
def lapKeys (tr : List Event) : List (String × String) :=
  tr.filterMap fun e =>
    match e with
    | Event.lap _ o n => some (o, n)
    | Event.logError _ => none

/-- An event with its timing value stripped: which wrapper emitted a
metrics lap, or which exception was logged — the order-observable shape of
the trace. -/
def eventShape (e : Event) : (String × String) ⊕ Exc :=
  match e with
  | Event.lap _ o n => Sum.inl (o, n)
  | Event.logError ex => Sum.inr ex

/-- Pure (exception-free, effect-free) behaviours for the four components;
`parse` and `save` return genuine 2-tuples as their interfaces promise. -/
structure PureComps where
  topk : V → V
  magnify : V → V → V
  ask : V → V
  parse : V → V → V × V
  rank : V → V → V
  save : V → V → V × V
  pack : V → V → V → V → V → V → V → V
  catchV : Exc → Except Exc V

/-- Lift pure component behaviours into the effect monad. -/
def liftComps (P : PureComps) : Comps where
  topk := fun r => pure (P.topk r)
  magnify := fun r t => pure (P.magnify r t)
  ask := fun r => pure (P.ask r)
  parse := fun r q => pure (V.pair (P.parse r q).1 (P.parse r q).2)
  rank := fun q c => pure (P.rank q c)
  save := fun q c => pure (V.pair (P.save q c).1 (P.save q c).2)
  pack := fun a b c d e f g => pure (P.pack a b c d e f g)
  catchE := P.catchV

/-- The value the search pipeline returns when every component call
succeeds: each step's result threaded into the next, ending in `pack`. -/
def pureSearchResult (P : PureComps) (req : V) : V :=
  let t := P.topk req
  let a := P.magnify req t
  let r := P.ask a
  let qc := P.parse a r
  let ranks := P.rank qc.1 qc.2
  let ids := P.save qc.1 qc.2
  P.pack t r qc.1 qc.2 ranks ids.1 ids.2

/-- Components exercising a failing inner step whose fallback cannot be
star-unpacked: `parse` raises `ValueError`, `catch` always returns the
plain (non-tuple) response `"fallback"`, and the other components are
simple pure behaviours. -/
def parseFailComps : Comps where
  topk := fun _ => M.pure (V.num 10)
  magnify := fun r _ => M.pure r
  ask := fun r => M.pure (V.pair (V.base "raw") r)
  parse := fun _ _ => M.throwExc ⟨"ValueError"⟩
  rank := fun q _ => M.pure q
  save := fun q _ => M.pure (V.pair q q)
  pack := fun a _ _ _ _ _ _ => M.pure a
  catchE := fun _ => Except.ok (V.base "fallback")

/-- Pure component behaviours with the first step (`topk`) replaced by one
that raises `e`; everything downstream is the lifted pure behaviour. -/
def topkFailComps (P : PureComps) (e : Exc) : Comps :=
  { liftComps P with topk := fun _ => M.throwExc e }

/-- The value the search pipeline returns when `topk` failed and the
adapter's fallback `fb` took its place: every remaining step runs with `fb`
threaded in where the topk result would have been. -/
def pureSearchResultFrom (P : PureComps) (req fb : V) : V :=
  let a := P.magnify req fb
  let r := P.ask a
  let qc := P.parse a r
  P.pack fb r qc.1 qc.2 (P.rank qc.1 qc.2)
    (P.save qc.1 qc.2).1 (P.save qc.1 qc.2).2

/-- Pure component behaviours with `magnify` replaced by one that raises
`e`; everything else is the lifted pure behaviour. -/
def magnifyFailComps (P : PureComps) (e : Exc) : Comps :=
  { liftComps P with magnify := fun _ _ => M.throwExc e }

/-- Pure component behaviours with `ask` replaced by one that raises `e`. -/
def askFailComps (P : PureComps) (e : Exc) : Comps :=
  { liftComps P with ask := fun _ => M.throwExc e }

/-- Pure component behaviours with `parse` replaced by one that raises
`e`. -/
def parseGenFailComps (P : PureComps) (e : Exc) : Comps :=
  { liftComps P with parse := fun _ _ => M.throwExc e }

/-- Pure component behaviours with `save` replaced by one that raises
`e`. -/
def saveFailComps (P : PureComps) (e : Exc) : Comps :=
  { liftComps P with save := fun _ _ => M.throwExc e }

/-- The value the search pipeline returns when `magnify` failed and the
adapter's fallback `fb` took its place: the amplified request becomes `fb`
and every remaining step runs on it. -/
def pureSearchResultMagnifyFb (P : PureComps) (req fb : V) : V :=
  let r := P.ask fb
  let qc := P.parse fb r
  P.pack (P.topk req) r qc.1 qc.2 (P.rank qc.1 qc.2)
    (P.save qc.1 qc.2).1 (P.save qc.1 qc.2).2

/-- The value the search pipeline returns when `ask` failed and the
adapter's fallback `fb` took its place: the raw response becomes `fb` and
every remaining step runs on it. -/
def pureSearchResultAskFb (P : PureComps) (req fb : V) : V :=
  let t := P.topk req
  let a := P.magnify req t
  let qc := P.parse a fb
  P.pack t fb qc.1 qc.2 (P.rank qc.1 qc.2)
    (P.save qc.1 qc.2).1 (P.save qc.1 qc.2).2

/-- Whether a value is a 2-tuple, i.e. whether star-unpacking it into two
arguments would succeed. -/
def isPairV (v : V) : Bool :=
  match v with
  | V.pair _ _ => true
  | _ => false

/-- A concrete pure component instance used to witness the pipeline
theorems on explicit inputs. -/
def pureCompsEx : PureComps where
  topk := fun _ => V.num 10
  magnify := fun r _ => r
  ask := fun r => V.pair (V.base "raw") r
  parse := fun _ r => (V.base "q", r)
  rank := fun q _ => q
  save := fun q _ => (V.num 1, q)
  pack := fun t _ q _ ranks qid _ =>
    V.pair t (V.pair q (V.pair ranks qid))
  catchV := fun _ => Except.ok (V.base "fb")

/-!
## The neural_rerank server: `running_avg` and `BaseServer.middleware`

`src/neural_rerank/server/base.py`.  `self.handler.routes` is a dict from
request path to the per-path entry; `setdefault(path, 0)` inserts the
*integer* `0` for an unseen path, while a registered path's entry is a dict
`{'reqs': n, 'lat': avg}` (the RouteState of the spec).  Subscripting is
only defined on the dict form; on the integer it raises `TypeError`.
-/

/-- A value of the `handler.routes` dict: either the integer `0` inserted
by `setdefault(request.path, 0)`, or a RouteState dict with request count
`reqs` and running-average latency `lat`. -/
inductive RouteVal where
  | intVal : Nat → RouteVal
  | state : Nat → ℚ → RouteVal
deriving Repr, DecidableEq

/-- The `handler.routes` dict, as an association list keyed by path. -/
def Routes : Type := List (String × RouteVal)

/-- Dict lookup `routes[path]`. -/
def lookupRoute (rs : Routes) (p : String) : Option RouteVal :=
  match rs with
  | [] => none
  | (q, v) :: rest => if q = p then some v else lookupRoute rest p

/-- Dict assignment `routes[path] = v` (in-place update, append if new). -/
def setRoute (rs : Routes) (p : String) (v : RouteVal) : Routes :=
  match rs with
  | [] => [(p, v)]
  | (q, w) :: rest =>
    if q = p then (q, v) :: rest else (q, w) :: setRoute rest p v

/-- Dict method `routes.setdefault(path, d)`: insert `d` only when `path`
is absent. -/
def setdefaultRoute (rs : Routes) (p : String) (d : RouteVal) : Routes :=
  match lookupRoute rs p with
  | some _ => rs
  | none => setRoute rs p d

/-- The `running_avg` helper (src/neural_rerank/server/base.py lines
11-12):
`(avg * n + new) / n`. -/
def running_avg (avg new : ℚ) (n : ℕ) : ℚ :=
  (avg * n + new) / n

/-- Outcome of `await handler(request)` inside the middleware's try block:
a response, a raised `web_exceptions.HTTPNotFound`, or any other raised
exception. -/
inductive HandlerOutcome where
  | ok : V → HandlerOutcome
  | httpNotFound : HandlerOutcome
  | exc : Exc → HandlerOutcome
deriving Repr, DecidableEq

/-- Modelled from the spec: `ServerHandler.internal_error` (the handler
module is not under src/) — `handle_error` converts "any uncaught exception
into a generic internal-error response". -/
def internal_error (e : Exc) : V :=
  V.pair (V.base "internal_error") (V.base e.name)

/-- Model of `response.body = pformat(response.body)`: the opt-in
pretty-print
transform applied when `'pretty' in request.query`. -/
def prettyFmt (v : V) : V :=
  V.pair (V.base "pformat") v

/-- The try/except of `BaseServer.middleware` (lines 77-82): the handler's
outcome, with `HTTPNotFound` routed to `self.handle_not_found(request)`
(whose base implementation re-raises `HTTPNotFound`, parameter `hnf`) and
any other exception to `self.handle_error(ex)`, which logs it and returns
`internal_error`. -/
def resolveDispatch (dispatch : HandlerOutcome) (hnf : Except Exc V) :
    Except Exc V :=
  match dispatch with
  | HandlerOutcome.ok r => Except.ok r
  | HandlerOutcome.httpNotFound => hnf
  | HandlerOutcome.exc e => Except.ok (internal_error e)

/-- Base implementation `BaseServer.handle_not_found` (lines 97-98):
it does `raise web.HTTPNotFound`. -/
def handle_not_found : Except Exc V :=
  Except.error ⟨"HTTPNotFound"⟩

/-- The `BaseServer.middleware` (src/neural_rerank/server/base.py lines
66-95)
for one request, run to completion.  Inputs: the routes dict, the request
path, whether `'pretty' in request.query`, the handler's outcome, the
`handle_not_found` behaviour, and the two `time.time()` readings taken at
`start = time.time()` and at the closing `running_avg` call, in seconds.
Returns the response together with the updated routes dict, or the
exception the middleware itself raises.  The `logger` calls touch no state
and are omitted. -/
def middleware (rs : Routes) (path : String) (pretty : Bool)
    (dispatch : HandlerOutcome) (hnf : Except Exc V)
    (startT endT : ℚ) : Except Exc (V × Routes) :=
  let rs₁ := setdefaultRoute rs path (RouteVal.intVal 0)
  match lookupRoute rs₁ path with
  | some (RouteVal.state n lat) =>
    let rs₂ := setRoute rs₁ path (RouteVal.state (n + 1) lat)
    match resolveDispatch dispatch hnf with
    | Except.error e => Except.error e
    | Except.ok resp =>
      let resp₂ := if pretty then prettyFmt resp else resp
      match lookupRoute rs₂ path with
      | some (RouteVal.state n₂ lat₂) =>
        Except.ok (resp₂,
          setRoute rs₂ path
            (RouteVal.state n₂ (running_avg lat₂ (endT - startT) n₂)))
      | _ => Except.error ⟨"TypeError"⟩
  | some (RouteVal.intVal _) => Except.error ⟨"TypeError"⟩
  | none => Except.error ⟨"KeyError"⟩

/-- N sequential requests to the same path, each dispatching successfully
to response `resp` with measured wall-clock latency `l` seconds (the
request's `time.time()` readings are `0` and `l`); stops at the first
exception the middleware raises. -/
def runRequests (rs : Routes) (path : String) (resp : V) :
    List ℚ → Except Exc Routes
  | [] => Except.ok rs
  | l :: rest =>
    match middleware rs path false (HandlerOutcome.ok resp)
        handle_not_found 0 l with
    | Except.ok (_, rs₂) => runRequests rs₂ path resp rest
    | Except.error e => Except.error e

/-!
## Startup lifecycle: `Proxy.start` and `BaseServer.run`

`Proxy.start` (src/nboost/proxy/__init__.py lines 158-161) spawns the
server process and then blocks on `self.server.is_ready.wait()` — an
`Event.wait()` with no timeout.  `BaseServer.run`
(src/neural_rerank/server/base.py lines 104-115) binds the listener inside
`create_app` and only then calls `self.is_ready.set()`.  The two processes
are modelled as a small interleaved transition system.
-/

/-- Program counter of the server process: not yet spawned; inside
`run_until_complete(create_app ...)`; listener bound, about to
`is_ready.set()`; in `loop.run_forever()`; or exited because `create_app`
raised (bind failure). -/
inductive SrvPC where
  | created
  | binding
  | bound
  | looping
  | dead
deriving Repr, DecidableEq

/-- Program counter of the caller of `Proxy.start`: before the call; blocked
in `is_ready.wait()`; or returned from `start()`. -/
inductive CallPC where
  | beforeStart
  | waiting
  | returned
deriving Repr, DecidableEq

/-- Joint state of caller and server: both program counters and the
`is_ready` multiprocessing event. -/
structure LifeState where
  srv : SrvPC
  cal : CallPC
  ready : Bool
deriving Repr, DecidableEq

/-- One interleaved step of the caller/server pair.  `bindOk` says whether
`create_app`'s `site.start()` succeeds in binding `host:port`.  The caller's
`wait_done` step is only enabled once `ready` is set: `Event.wait()` has no
timeout and observes nothing but the event, in particular not the death of
the server process. -/
inductive LifeStep (bindOk : Bool) : LifeState → LifeState → Prop where
  | spawn : ∀ r, LifeStep bindOk ⟨SrvPC.created, CallPC.beforeStart, r⟩
      ⟨SrvPC.binding, CallPC.waiting, r⟩
  | bindSucceeds : ∀ c r, bindOk = true →
      LifeStep bindOk ⟨SrvPC.binding, c, r⟩ ⟨SrvPC.bound, c, r⟩
  | bindFails : ∀ c r, bindOk = false →
      LifeStep bindOk ⟨SrvPC.binding, c, r⟩ ⟨SrvPC.dead, c, r⟩
  | setReady : ∀ c, LifeStep bindOk ⟨SrvPC.bound, c, false⟩
      ⟨SrvPC.looping, c, true⟩
  | waitDone : ∀ s, LifeStep bindOk ⟨s, CallPC.waiting, true⟩
      ⟨s, CallPC.returned, true⟩

/-- States reachable from the initial state (server not spawned, caller
before `start()`, `is_ready` unset). -/
inductive LifeReach (bindOk : Bool) : LifeState → Prop where
  | start : LifeReach bindOk ⟨SrvPC.created, CallPC.beforeStart, false⟩
  | step : ∀ {s t}, LifeReach bindOk s → LifeStep bindOk s t →
      LifeReach bindOk t

/-!
## Helper lemmas
-/

theorem M.bind_eq {α β : Type} (x : M α) (f : α → M β) :
    x >>= f = M.bind x f := rfl

theorem M.pure_eq {α : Type} (a : α) : (pure a : M α) = M.pure a := rfl

theorem M.pure_apply {α : Type} (a : α) (s : St) :
    @Pure.pure M (@Applicative.toPure M (@Monad.toApplicative M instMonadM))
      α a s = (Except.ok a, s) := rfl

/-- Running the `track` decorator when the wrapped operation succeeds:
the result passes through unchanged; one `lap` event is appended whose
milliseconds are a thousand times the difference of the two `perf_counter`
readings surrounding the operation. -/
theorem track_ok (catchE : Exc → Except Exc V) (ident : String × String)
    (f : M V) (s s₂ : St) (v : V)
    (hf : f { s with clock := s.clock.tail } = (Except.ok v, s₂)) :
    track catchE ident f s =
      (Except.ok v,
       { trace := s₂.trace ++
           [Event.lap ((s₂.clock.headD 0 - s.clock.headD 0) * 1000)
             ident.1 ident.2],
         clock := s₂.clock.tail }) := by
  simp only [track, M.bind_eq, M.bind, M.pure_eq, M.pure, perfCounter,
    dbLap, hf]
  rfl

/-- Running the `track` decorator when the wrapped operation raises: the
error is logged and control passes to `codex.catch`, whose own result (a
fallback response, or a further exception) decides the outcome. -/
theorem track_err (catchE : Exc → Except Exc V) (ident : String × String)
    (f : M V) (s s₂ : St) (e : Exc)
    (hf : f { s with clock := s.clock.tail } = (Except.error e, s₂)) :
    track catchE ident f s =
      match catchE e with
      | Except.ok fb => (Except.ok fb, logErrorEvt e s₂)
      | Except.error e₂ => (Except.error e₂, logErrorEvt e s₂) := by
  simp only [track, M.bind_eq, M.bind, M.pure_eq, M.pure, perfCounter,
    dbLap, hf]

/-- C1: For every search request, the search route handler invokes the
components in exactly this fixed order, each call wrapped by the
instrumentation decorator, threading each result into the next step:
(1) codex.topk on the request, (2) codex.magnify on (request, topk),
(3) server.ask on the amplified request, (4) codex.parse on (amplified
request, raw response) yielding (query, choices), (5) model.rank,
(6) db.save, (7) codex.pack, whose result is the handler's return value.
The order is witnessed by the metrics events each wrapper emits, and the
threading by the returned value `pureSearchResult`. -/
theorem search_route_fixed_order (P : PureComps) (req : V) (ck : List ℚ) :
    (searchRoute (liftComps P) req ⟨[], ck⟩).1 =
      Except.ok (pureSearchResult P req) ∧
    lapKeys (searchRoute (liftComps P) req ⟨[], ck⟩).2.trace =
      [("BaseCodex", "topk"), ("BaseCodex", "magnify"),
       ("BaseServer", "ask"), ("BaseCodex", "parse"),
       ("BaseModel", "rank"), ("BaseDb", "save"),
       ("BaseCodex", "pack"), ("Proxy", "search")] :=
  ⟨rfl, rfl⟩

/-- C7: For every request whose path matches none of the registered routes,
the `not_found` handler delegates to the Backend Connector's `forward` with
the raw, unmodified request, and returns the backend's response verbatim —
an ok response, not an error. -/
theorem not_found_pass_through (catchE : Exc → Except Exc V)
    (backend : V → V) (req : V) (ck : List ℚ) :
    (notFoundRoute catchE backend req ⟨[], ck⟩).1 =
      Except.ok (backend req) ∧
    lapKeys (notFoundRoute catchE backend req ⟨[], ck⟩).2.trace =
      [("BaseServer", "forward"), ("Proxy", "not_found")] :=
  ⟨rfl, rfl⟩

/-- C3: For every wrapped operation that completes without raising, the
instrumentation wrapper emits a metrics event carrying the owner name, the
operation name, and the elapsed time in milliseconds (a thousand times the
difference of the surrounding `perf_counter` readings) to the Metrics Store
via `lap`, and returns the operation's result unchanged. -/
theorem wrapper_success_passthrough (catchE : Exc → Except Exc V)
    (ident : String × String) (f : M V) (s s₂ : St) (v : V)
    (hf : f { s with clock := s.clock.tail } = (Except.ok v, s₂)) :
    track catchE ident f s =
      (Except.ok v,
       { trace := s₂.trace ++
           [Event.lap ((s₂.clock.headD 0 - s.clock.headD 0) * 1000)
             ident.1 ident.2],
         clock := s₂.clock.tail }) :=
  track_ok catchE ident f s s₂ v hf

/-- Witness for C3 at a concrete input: wrapping the operation that returns
the response `"r"` and runs from `perf_counter` reading 1 to reading 3 emits
a 2000 ms lap event for `("BaseCodex", "topk")` and returns `"r"`. -/
theorem wrapper_success_passthrough_witness :
    track (fun _ => Except.ok (V.base "fb")) ("BaseCodex", "topk")
        (M.pure (V.base "r")) ⟨[], [1, 3]⟩ =
      (Except.ok (V.base "r"),
       ⟨[Event.lap 2000 "BaseCodex" "topk"], []⟩) := by
  have h := wrapper_success_passthrough (fun _ => Except.ok (V.base "fb"))
    ("BaseCodex", "topk") (M.pure (V.base "r")) ⟨[], [1, 3]⟩ ⟨[], [3]⟩
    (V.base "r") rfl
  rw [h]
  norm_num

/-- C2: For every wrapped operation that raises, the instrumentation
wrapper logs the error (the `logError` event of `logErrorEvt`), delegates
to the Protocol Adapter's `catch` hook, and returns the fallback `catch`
produced instead of propagating the exception — or re-raises `catch`'s own
exception when the adapter declines.  Below the route handlers, the server
middleware converts any remaining exception into a generic internal-error
response rather than propagating it, so no failure below the middleware
layer escapes a single request's dispatch. -/
theorem wrapper_contains_failures (catchE : Exc → Except Exc V)
    (ident : String × String) (f : M V) (s s₂ : St) (e : Exc)
    (hf : f { s with clock := s.clock.tail } = (Except.error e, s₂)) :
    (∀ fb, catchE e = Except.ok fb →
      track catchE ident f s = (Except.ok fb, logErrorEvt e s₂)) ∧
    (∀ e₂, catchE e = Except.error e₂ →
      track catchE ident f s = (Except.error e₂, logErrorEvt e s₂)) ∧
    (∀ (path : String) (n : ℕ) (lat startT endT : ℚ),
      middleware [(path, RouteVal.state n lat)] path false
          (HandlerOutcome.exc e) handle_not_found startT endT =
        Except.ok (internal_error e,
          [(path, RouteVal.state (n + 1)
            (running_avg lat (endT - startT) (n + 1)))])) := by
  refine ⟨?_, ?_, ?_⟩
  · intro fb hc
    rw [track_err catchE ident f s s₂ e hf, hc]
  · intro e₂ hc
    rw [track_err catchE ident f s s₂ e hf, hc]
  · intro path n lat startT endT
    simp [middleware, setdefaultRoute, lookupRoute, setRoute,
      resolveDispatch]

/-- Witness for C2 at a concrete input: an operation raising `ValueError`
whose `catch` returns the fallback response `"fb"` makes the wrapper log the
error and return the fallback; the middleware converts an uncaught
`ValueError` on path `"/s"` into an internal-error response. -/
theorem wrapper_contains_failures_witness :
    track (fun _ => Except.ok (V.base "fb")) ("BaseCodex", "topk")
        (M.throwExc ⟨"ValueError"⟩) ⟨[], []⟩ =
      (Except.ok (V.base "fb"),
       ⟨[Event.logError ⟨"ValueError"⟩], []⟩) ∧
    middleware [("/s", RouteVal.state 0 0)] "/s" false
        (HandlerOutcome.exc ⟨"ValueError"⟩) handle_not_found 0 1 =
      Except.ok (internal_error ⟨"ValueError"⟩,
        [("/s", RouteVal.state 1 1)]) := by
  have h := wrapper_contains_failures (fun _ => Except.ok (V.base "fb"))
    ("BaseCodex", "topk") (M.throwExc ⟨"ValueError"⟩) ⟨[], []⟩ ⟨[], []⟩
    ⟨"ValueError"⟩ rfl
  refine ⟨h.1 (V.base "fb") rfl, ?_⟩
  have h₂ := h.2.2 "/s" 0 0 0 1
  rw [h₂]
  norm_num [running_avg]

theorem lookupRoute_setRoute_self (rs : Routes) (p : String) (v : RouteVal) :
    lookupRoute (setRoute rs p v) p = some v := by
  induction rs with
  | nil => simp [setRoute, lookupRoute]
  | cons hd tl ih =>
    by_cases h : hd.1 = p
    · simp [setRoute, lookupRoute, h]
    · simpa [setRoute, lookupRoute, h] using ih

theorem setdefaultRoute_present (rs : Routes) (p : String) (d w : RouteVal)
    (h : lookupRoute rs p = some w) : setdefaultRoute rs p d = rs := by
  simp [setdefaultRoute, h]

theorem setRoute_setRoute (rs : Routes) (p : String) (v w : RouteVal) :
    setRoute (setRoute rs p v) p w = setRoute rs p w := by
  induction rs with
  | nil => simp [setRoute]
  | cons hd tl ih =>
    by_cases h : hd.1 = p
    · simp [setRoute, h]
    · simp [setRoute, h, ih]

/-- C4 counterexample: a dispatch on a registered path `"/search"` whose
`time.time()` readings are 0 and 1 — one second, i.e. 1000 milliseconds, of
measured latency.  The middleware stores a running average of `1`, the raw
seconds value: it does not fold the latency expressed in milliseconds,
which `running_avg` on `(1 - 0) * 1000` would make `1000`. -/
theorem middleware_folds_seconds_not_ms :
    middleware [("/search", RouteVal.state 0 0)] "/search" false
        (HandlerOutcome.ok (V.base "resp")) handle_not_found 0 1 =
      Except.ok (V.base "resp",
        [("/search", RouteVal.state 1 (running_avg 0 (1 - 0) 1))]) ∧
    running_avg 0 (1 - 0) 1 ≠ running_avg 0 ((1 - 0) * 1000) 1 := by
  constructor
  · simp [middleware, setdefaultRoute, lookupRoute, setRoute,
      resolveDispatch]
  · norm_num [running_avg]

/-- C4 (amended): for every completed request dispatch on a path whose
routes entry is a RouteState, the middleware folds the dispatch's measured
latency — the raw `time.time()` difference in seconds, with no millisecond
conversion — into the path's running average using
`running_avg avg new n = (avg * n + new) / n`, where `n` is the request
counter value after it was incremented for this request. -/
theorem middleware_running_average_update (rs : Routes) (path : String)
    (pretty : Bool) (dispatch : HandlerOutcome) (hnf : Except Exc V)
    (startT endT : ℚ) (n : ℕ) (lat : ℚ) (resp : V)
    (hs : lookupRoute rs path = some (RouteVal.state n lat))
    (hd : resolveDispatch dispatch hnf = Except.ok resp) :
    middleware rs path pretty dispatch hnf startT endT =
      Except.ok ((if pretty then prettyFmt resp else resp),
        setRoute rs path
          (RouteVal.state (n + 1)
            (running_avg lat (endT - startT) (n + 1)))) := by
  have h₁ : setdefaultRoute rs path (RouteVal.intVal 0) = rs :=
    setdefaultRoute_present rs path (RouteVal.intVal 0)
      (RouteVal.state n lat) hs
  simp only [middleware, h₁, hs, hd, lookupRoute_setRoute_self,
    setRoute_setRoute]

/-- Witness for C4 (amended) at a concrete input: one dispatch on `"/s"`
with prior state `{reqs: 4, lat: 2}` and readings 0 and 7 yields counter 5
and running average `(2 * 5 + 7) / 5 = 17 / 5`. -/
theorem middleware_running_average_update_witness :
    middleware [("/s", RouteVal.state 4 2)] "/s" false
        (HandlerOutcome.ok (V.base "resp")) handle_not_found 0 7 =
      Except.ok (V.base "resp", [("/s", RouteVal.state 5 (17 / 5))]) := by
  have h := middleware_running_average_update
    [("/s", RouteVal.state 4 2)] "/s" false
    (HandlerOutcome.ok (V.base "resp")) handle_not_found 0 7 4 2
    (V.base "resp") (by simp [lookupRoute]) rfl
  rw [h]
  norm_num [running_avg, setRoute]

/-- C5: iterating the middleware's running-average update over the
latencies 2 and 0 (seconds) on the registered path `"/p"` yields a final
counter of 2 — but a stored average of 2, not the arithmetic mean
`(2 + 0) / 2 = 1`: the update `(avg * n + new) / n` weights the old average
by the post-increment count, so iterating it does not compute the mean. -/
theorem running_average_iteration_not_mean :
    runRequests [("/p", RouteVal.state 0 0)] "/p" (V.base "resp") [2, 0] =
      Except.ok [("/p", RouteVal.state 2 2)] ∧
    (2 : ℚ) ≠ (2 + 0) / 2 := by
  constructor
  · simp [runRequests, middleware, setdefaultRoute, lookupRoute, setRoute,
      resolveDispatch, running_avg]
  · norm_num

/-- C6: a request to the path `"/foo"`, never seen before (only `"/status"`
is registered), makes the middleware raise `TypeError`:
`routes.setdefault(request.path, 0)` inserts the integer `0`, and
`routes[request.path]['reqs'] += 1` then subscripts that integer.  The
lazy state-creation branch is not total — it raises on every unseen path. -/
theorem middleware_unseen_path_raises :
    middleware [("/status", RouteVal.state 3 5)] "/foo" false
        (HandlerOutcome.ok (V.base "resp")) handle_not_found 0 1 =
      Except.error ⟨"TypeError"⟩ := by
  simp [middleware, setdefaultRoute, lookupRoute, setRoute]

/-- Lifecycle invariant: the readiness event is set only in the `looping`
state (i.e. only after the listener was bound), and the caller has returned
from `start()` only if the readiness event is set. -/
theorem lifeReach_invariant (bindOk : Bool) (s : LifeState)
    (hr : LifeReach bindOk s) :
    (s.ready = true → s.srv = SrvPC.looping) ∧
    (s.cal = CallPC.returned → s.ready = true) := by
  induction hr with
  | start => exact ⟨fun h => by simp at h, fun h => by simp at h⟩
  | step _ hstep ih =>
    cases hstep with
    | spawn r =>
      refine ⟨fun h => absurd (ih.1 h) (by simp), fun h => by simp at h⟩
    | bindSucceeds c r hb =>
      have hr₂ : r = false := by
        by_contra hne
        have : r = true := by
          cases r
          · exact absurd rfl hne
          · rfl
        exact absurd (ih.1 this) (by simp)
      subst hr₂
      exact ⟨fun h => by simp at h,
        fun h => absurd (ih.2 h) (by simp)⟩
    | bindFails c r hb =>
      have hr₂ : r = false := by
        by_contra hne
        have : r = true := by
          cases r
          · exact absurd rfl hne
          · rfl
        exact absurd (ih.1 this) (by simp)
      subst hr₂
      exact ⟨fun h => by simp at h,
        fun h => absurd (ih.2 h) (by simp)⟩
    | setReady c => exact ⟨fun _ => rfl, fun _ => rfl⟩
    | waitDone s₀ =>
      exact ⟨fun _ => ih.1 rfl, fun _ => rfl⟩

/-- C8: the readiness signal is set only after the server's run loop has
bound the listener, and the caller's `start()` blocks on that signal: in
every reachable state in which `start()` has returned, the server is in its
`looping` state — listening on the bound socket — and the readiness event
is set.  `start()` never returns before the server can accept
connections. -/
theorem start_returns_only_when_listening (bindOk : Bool) (s : LifeState)
    (hr : LifeReach bindOk s) (hc : s.cal = CallPC.returned) :
    s.srv = SrvPC.looping ∧ s.ready = true := by
  have h := lifeReach_invariant bindOk s hr
  exact ⟨h.1 (h.2 hc), h.2 hc⟩

/-- Witness for C8 at a concrete reachable state: after the full successful
run — spawn, bind, set-ready, wait-done — the caller has returned and the
theorem yields that the server is listening. -/
theorem start_returns_only_when_listening_witness :
    (⟨SrvPC.looping, CallPC.returned, true⟩ : LifeState).srv =
        SrvPC.looping ∧
      (⟨SrvPC.looping, CallPC.returned, true⟩ : LifeState).ready = true :=
  start_returns_only_when_listening true
    ⟨SrvPC.looping, CallPC.returned, true⟩
    (LifeReach.step
      (LifeReach.step
        (LifeReach.step
          (LifeReach.step LifeReach.start (LifeStep.spawn false))
          (LifeStep.bindSucceeds CallPC.waiting false rfl))
        (LifeStep.setReady CallPC.waiting))
      (LifeStep.waitDone SrvPC.looping))
    rfl

/-- Failed-startup invariant: when the bind fails, the server never reaches
`bound` or `looping`, the readiness event is never set, and the caller
never returns from `start()` — `is_ready.wait()` has no timeout and does
not observe the death of the server process. -/
theorem lifeReach_bindFail_invariant (s : LifeState)
    (hr : LifeReach false s) :
    s.srv ≠ SrvPC.bound ∧ s.ready = false ∧ s.cal ≠ CallPC.returned := by
  induction hr with
  | start => exact ⟨by simp, rfl, by simp⟩
  | step _ hstep ih =>
    cases hstep with
    | spawn r => exact ⟨by simp, ih.2.1, by simp⟩
    | bindSucceeds c r hb => exact absurd hb (by simp)
    | bindFails c r hb => exact ⟨by simp, ih.2.1, ih.2.2⟩
    | setReady c => exact absurd rfl ih.1
    | waitDone s₀ => exact absurd ih.2.1 (by simp)

/-- C9: when server startup fails before the readiness signal is set, no
reachable state has `start()` returned: `is_ready.wait()` is unbounded and
does not detect the server process's death, so `start()` hangs forever —
the code does not terminate as the claim requires. -/
theorem start_hangs_on_bind_failure (s : LifeState)
    (hr : LifeReach false s) : s.cal ≠ CallPC.returned :=
  (lifeReach_bindFail_invariant s hr).2.2

/-- Witness for C9 at a concrete reachable state: after spawn and a failed
bind the server is dead, the caller still waits, and the theorem yields
that it has not returned. -/
theorem start_hangs_on_bind_failure_witness :
    (⟨SrvPC.dead, CallPC.waiting, false⟩ : LifeState).cal ≠
      CallPC.returned :=
  start_hangs_on_bind_failure ⟨SrvPC.dead, CallPC.waiting, false⟩
    (LifeReach.step
      (LifeReach.step LifeReach.start (LifeStep.spawn false))
      (LifeStep.bindFails CallPC.waiting false rfl))

/-- C10 counterexample: `parse` (an inner instrumented step) raises and its
wrapper substitutes the adapter's fallback `"fallback"` — but the remaining
steps do *not* execute: star-unpacking the non-tuple fallback at the
`model.rank(*_5)` call site raises `TypeError` outside the inner wrapper,
the route short-circuits, and the outermost wrapper replaces the whole
route's response.  The trace shows laps for topk, magnify and ask only —
no rank, save or pack — and the route's value is the outer fallback. -/
theorem inner_failure_short_circuits :
    (searchRoute parseFailComps (V.base "req") ⟨[], []⟩).1 =
      Except.ok (V.base "fallback") ∧
    (searchRoute parseFailComps (V.base "req") ⟨[], []⟩).2.trace.map
        eventShape =
      [Sum.inl ("BaseCodex", "topk"), Sum.inl ("BaseCodex", "magnify"),
       Sum.inl ("BaseServer", "ask"), Sum.inr ⟨"ValueError"⟩,
       Sum.inr ⟨"TypeError"⟩] ∧
    ("BaseModel", "rank") ∉
      lapKeys (searchRoute parseFailComps (V.base "req") ⟨[], []⟩).2.trace
    := by
  refine ⟨rfl, rfl, ?_⟩
  have hk : lapKeys
      (searchRoute parseFailComps (V.base "req") ⟨[], []⟩).2.trace =
      [("BaseCodex", "topk"), ("BaseCodex", "magnify"),
       ("BaseServer", "ask")] := rfl
  rw [hk]
  decide

/-- C10 (amended): when an inner instrumented step raises and the adapter's
`catch` produces a fallback, the wrapper substitutes the fallback as that
step's return value.  The steps that consume the failed step's result
directly still execute, receiving the fallback as input: with `topk`,
`magnify` or `ask` raising `e` and `catch e` returning `fb`, every
remaining step runs — their laps all appear — and the route returns the
full pipeline applied with `fb` in the failed step's place.  But when the
failed step's result is star-unpacked at a later call site and the
fallback is not a 2-tuple: with `parse` failing, the `rank(*_5)` unpacking
raises and only topk, magnify and ask have run; with `save` failing, the
`pack(..., *_7)` unpacking raises and only topk, magnify, ask, parse and
rank have run; in both cases the remaining steps are skipped and the
outermost wrapper replaces the whole route's response with `catch`'s
fallback for the `TypeError`. -/
theorem inner_failure_fallback_threads (P : PureComps) (req fb fb₂ : V)
    (e : Exc) (ck : List ℚ) (hc : P.catchV e = Except.ok fb) :
    ((searchRoute (topkFailComps P e) req ⟨[], ck⟩).1 =
        Except.ok (pureSearchResultFrom P req fb) ∧
      lapKeys (searchRoute (topkFailComps P e) req ⟨[], ck⟩).2.trace =
        [("BaseCodex", "magnify"), ("BaseServer", "ask"),
         ("BaseCodex", "parse"), ("BaseModel", "rank"),
         ("BaseDb", "save"), ("BaseCodex", "pack"),
         ("Proxy", "search")]) ∧
    ((searchRoute (magnifyFailComps P e) req ⟨[], ck⟩).1 =
        Except.ok (pureSearchResultMagnifyFb P req fb) ∧
      lapKeys (searchRoute (magnifyFailComps P e) req ⟨[], ck⟩).2.trace =
        [("BaseCodex", "topk"), ("BaseServer", "ask"),
         ("BaseCodex", "parse"), ("BaseModel", "rank"),
         ("BaseDb", "save"), ("BaseCodex", "pack"),
         ("Proxy", "search")]) ∧
    ((searchRoute (askFailComps P e) req ⟨[], ck⟩).1 =
        Except.ok (pureSearchResultAskFb P req fb) ∧
      lapKeys (searchRoute (askFailComps P e) req ⟨[], ck⟩).2.trace =
        [("BaseCodex", "topk"), ("BaseCodex", "magnify"),
         ("BaseCodex", "parse"), ("BaseModel", "rank"),
         ("BaseDb", "save"), ("BaseCodex", "pack"),
         ("Proxy", "search")]) ∧
    (P.catchV ⟨"TypeError"⟩ = Except.ok fb₂ → isPairV fb = false →
      ((searchRoute (parseGenFailComps P e) req ⟨[], ck⟩).1 =
          Except.ok fb₂ ∧
        lapKeys
            (searchRoute (parseGenFailComps P e) req ⟨[], ck⟩).2.trace =
          [("BaseCodex", "topk"), ("BaseCodex", "magnify"),
           ("BaseServer", "ask")]) ∧
      ((searchRoute (saveFailComps P e) req ⟨[], ck⟩).1 =
          Except.ok fb₂ ∧
        lapKeys (searchRoute (saveFailComps P e) req ⟨[], ck⟩).2.trace =
          [("BaseCodex", "topk"), ("BaseCodex", "magnify"),
           ("BaseServer", "ask"), ("BaseCodex", "parse"),
           ("BaseModel", "rank")])) := by
  refine ⟨⟨?_, ?_⟩, ⟨?_, ?_⟩, ⟨?_, ?_⟩, ?_⟩
  · simp only [searchRoute, searchBody, topkFailComps, liftComps, track,
      M.bind_eq, M.bind, M.pure_eq, M.pure, M.throwExc, perfCounter,
      dbLap, unpack2, logErrorEvt, hc, pureSearchResultFrom]
    rfl
  · simp only [searchRoute, searchBody, topkFailComps, liftComps, track,
      M.bind_eq, M.bind, M.pure_eq, M.pure, M.throwExc, perfCounter,
      dbLap, unpack2, logErrorEvt, hc, lapKeys]
    rfl
  · simp only [searchRoute, searchBody, magnifyFailComps, liftComps, track,
      M.bind_eq, M.bind, M.pure_eq, M.pure, M.throwExc, perfCounter,
      dbLap, unpack2, logErrorEvt, hc, pureSearchResultMagnifyFb]
    rfl
  · simp only [searchRoute, searchBody, magnifyFailComps, liftComps, track,
      M.bind_eq, M.bind, M.pure_eq, M.pure, M.throwExc, perfCounter,
      dbLap, unpack2, logErrorEvt, hc, lapKeys]
    rfl
  · simp only [searchRoute, searchBody, askFailComps, liftComps, track,
      M.bind_eq, M.bind, M.pure_eq, M.pure, M.throwExc, perfCounter,
      dbLap, unpack2, logErrorEvt, hc, pureSearchResultAskFb]
    rfl
  · simp only [searchRoute, searchBody, askFailComps, liftComps, track,
      M.bind_eq, M.bind, M.pure_eq, M.pure, M.throwExc, perfCounter,
      dbLap, unpack2, logErrorEvt, hc, lapKeys]
    rfl
  · intro hct hpair
    cases fb with
    | pair a b => simp [isPairV] at hpair
    | base sName =>
      refine ⟨⟨?_, ?_⟩, ⟨?_, ?_⟩⟩
      · simp only [searchRoute, searchBody, parseGenFailComps, liftComps,
          track, M.bind_eq, M.bind, M.pure_eq, M.pure, M.throwExc,
          perfCounter, dbLap, unpack2, logErrorEvt, M.pure_apply, hc,
          hct]
      · simp only [searchRoute, searchBody, parseGenFailComps, liftComps,
          track, M.bind_eq, M.bind, M.pure_eq, M.pure, M.throwExc,
          perfCounter, dbLap, unpack2, logErrorEvt, M.pure_apply, hc,
          hct, lapKeys, List.filterMap_append]
        rfl
      · simp only [searchRoute, searchBody, saveFailComps, liftComps,
          track, M.bind_eq, M.bind, M.pure_eq, M.pure, M.throwExc,
          perfCounter, dbLap, unpack2, logErrorEvt, M.pure_apply, hc,
          hct]
      · simp only [searchRoute, searchBody, saveFailComps, liftComps,
          track, M.bind_eq, M.bind, M.pure_eq, M.pure, M.throwExc,
          perfCounter, dbLap, unpack2, logErrorEvt, M.pure_apply, hc,
          hct, lapKeys, List.filterMap_append]
        rfl
    | num nv =>
      refine ⟨⟨?_, ?_⟩, ⟨?_, ?_⟩⟩
      · simp only [searchRoute, searchBody, parseGenFailComps, liftComps,
          track, M.bind_eq, M.bind, M.pure_eq, M.pure, M.throwExc,
          perfCounter, dbLap, unpack2, logErrorEvt, M.pure_apply, hc,
          hct]
      · simp only [searchRoute, searchBody, parseGenFailComps, liftComps,
          track, M.bind_eq, M.bind, M.pure_eq, M.pure, M.throwExc,
          perfCounter, dbLap, unpack2, logErrorEvt, M.pure_apply, hc,
          hct, lapKeys, List.filterMap_append]
        rfl
      · simp only [searchRoute, searchBody, saveFailComps, liftComps,
          track, M.bind_eq, M.bind, M.pure_eq, M.pure, M.throwExc,
          perfCounter, dbLap, unpack2, logErrorEvt, M.pure_apply, hc,
          hct]
      · simp only [searchRoute, searchBody, saveFailComps, liftComps,
          track, M.bind_eq, M.bind, M.pure_eq, M.pure, M.throwExc,
          perfCounter, dbLap, unpack2, logErrorEvt, M.pure_apply, hc,
          hct, lapKeys, List.filterMap_append]
        rfl

/-- Witness for C10 (amended) at a concrete input: `pureCompsEx` with the
failing step raising `"E"` and the non-tuple fallback `"fb"` exercises all
five cases — threading for topk, magnify and ask failures, short-circuit
for parse and save failures. -/
theorem inner_failure_fallback_threads_witness :
    ((searchRoute (topkFailComps pureCompsEx ⟨"E"⟩) (V.base "req")
          ⟨[], []⟩).1 =
        Except.ok (pureSearchResultFrom pureCompsEx (V.base "req")
          (V.base "fb")) ∧
      lapKeys (searchRoute (topkFailComps pureCompsEx ⟨"E"⟩)
          (V.base "req") ⟨[], []⟩).2.trace =
        [("BaseCodex", "magnify"), ("BaseServer", "ask"),
         ("BaseCodex", "parse"), ("BaseModel", "rank"),
         ("BaseDb", "save"), ("BaseCodex", "pack"),
         ("Proxy", "search")]) ∧
    ((searchRoute (magnifyFailComps pureCompsEx ⟨"E"⟩) (V.base "req")
          ⟨[], []⟩).1 =
        Except.ok (pureSearchResultMagnifyFb pureCompsEx (V.base "req")
          (V.base "fb")) ∧
      lapKeys (searchRoute (magnifyFailComps pureCompsEx ⟨"E"⟩)
          (V.base "req") ⟨[], []⟩).2.trace =
        [("BaseCodex", "topk"), ("BaseServer", "ask"),
         ("BaseCodex", "parse"), ("BaseModel", "rank"),
         ("BaseDb", "save"), ("BaseCodex", "pack"),
         ("Proxy", "search")]) ∧
    ((searchRoute (askFailComps pureCompsEx ⟨"E"⟩) (V.base "req")
          ⟨[], []⟩).1 =
        Except.ok (pureSearchResultAskFb pureCompsEx (V.base "req")
          (V.base "fb")) ∧
      lapKeys (searchRoute (askFailComps pureCompsEx ⟨"E"⟩)
          (V.base "req") ⟨[], []⟩).2.trace =
        [("BaseCodex", "topk"), ("BaseCodex", "magnify"),
         ("BaseCodex", "parse"), ("BaseModel", "rank"),
         ("BaseDb", "save"), ("BaseCodex", "pack"),
         ("Proxy", "search")]) ∧
    ((searchRoute (parseGenFailComps pureCompsEx ⟨"E"⟩) (V.base "req")
          ⟨[], []⟩).1 = Except.ok (V.base "fb") ∧
      lapKeys (searchRoute (parseGenFailComps pureCompsEx ⟨"E"⟩)
          (V.base "req") ⟨[], []⟩).2.trace =
        [("BaseCodex", "topk"), ("BaseCodex", "magnify"),
         ("BaseServer", "ask")]) ∧
    ((searchRoute (saveFailComps pureCompsEx ⟨"E"⟩) (V.base "req")
          ⟨[], []⟩).1 = Except.ok (V.base "fb") ∧
      lapKeys (searchRoute (saveFailComps pureCompsEx ⟨"E"⟩)
          (V.base "req") ⟨[], []⟩).2.trace =
        [("BaseCodex", "topk"), ("BaseCodex", "magnify"),
         ("BaseServer", "ask"), ("BaseCodex", "parse"),
         ("BaseModel", "rank")]) := by
  have h := inner_failure_fallback_threads pureCompsEx (V.base "req")
    (V.base "fb") (V.base "fb") ⟨"E"⟩ [] rfl
  have h₂ := h.2.2.2 rfl rfl
  exact ⟨h.1, h.2.1, h.2.2.1, h₂.1, h₂.2⟩
